import Mathlib

/-!
Verification of the multi-agent credit-analysis pipeline.

Shallow embedding of the decision pipeline of the repository:
the Risk Analyst scoring functions (src/agents/risk_analyst.py),
the Quality Assurance gate (src/agents/quality_assurance.py),
the orchestration routing and retry loop (src/graph/credit_analysis_graph.py),
and the base-agent error handler (src/agents/base_agent.py).

Modelling conventions:
- Python floats become exact rationals.
- Python Optional values become Option; Python truthiness of an optional
  number is "present and nonzero", of a string "present and nonempty".
- Python substring tests (the `in` operator) are modelled by an explicit
  character-list infix search; `str.lower` is modelled by mapping
  Char.toLower over the characters (identical on the ASCII keywords the
  code searches for).
- The factor strings the scorers build with f-string interpolation are
  modelled by an inductive Factor type, one constructor per append site,
  carrying the interpolated numeric or textual payloads; Factor.render
  rebuilds the surrounding literal text (numeric formatting is abstracted
  by exact-rational printing, which contains no letters and therefore
  cannot change any keyword-membership test the code performs on them).
- The LLM narrative and feedback texts are external non-deterministic
  inputs; they enter the model as explicit String parameters.
- datetime values are modelled by integer day counts; the timedelta
  `.days / 365` computation becomes exact rational division.
-/

/-- Decisions of the risk analyst (schemas.RiskDecision). -/
inductive RiskDecision where
  | approve
  | review
  | reject
deriving DecidableEq, Repr

/-- The `.value` string of a RiskDecision. -/
def RiskDecision.value : RiskDecision → String
  | .approve => "approve"
  | .review => "review"
  | .reject => "reject"

/-- Status of the quality validation (schemas.QualityStatus). -/
inductive QualityStatus where
  | approved
  | rejected
deriving DecidableEq, Repr

/-- Document types (schemas.DocumentType). -/
inductive DocumentType where
  | balance_sheet
  | income_statement
  | cash_flow
  | other
deriving DecidableEq, Repr

/-- One extracted financial-indicator snapshot (schemas.FinancialKPI).
All numeric fields are optional; absence means not observed. -/
structure FinancialKPI where
  revenue : Option ℚ
  gross_profit : Option ℚ
  operating_profit : Option ℚ
  net_profit : Option ℚ
  total_assets : Option ℚ
  total_liabilities : Option ℚ
  equity : Option ℚ
  current_assets : Option ℚ
  current_liabilities : Option ℚ
  debt_to_equity : Option ℚ
  roa : Option ℚ
  roe : Option ℚ
  period : String
deriving DecidableEq, Repr

/-- One web search hit (schemas.WebSearchResult). -/
structure WebSearchResult where
  url : String
  title : String
  content : String
  relevance_score : ℚ
  search_type : String
deriving DecidableEq, Repr

/-- Per-document analysis result (schemas.DocumentAnalysis). -/
structure DocumentAnalysis where
  document_type : DocumentType
  financial_kpis : List FinancialKPI
  extracted_text_sample : String
  confidence_score : ℚ
  processing_notes : List String
deriving DecidableEq, Repr

/-- Company registry record (schemas.CompanyData). The address dictionary
is abstracted to an optional opaque string; registration_date is a day
count. -/
structure CompanyData where
  cnpj : String
  corporate_name : String
  trade_name : Option String
  legal_nature : Option String
  main_activity : Option String
  registration_date : Option ℤ
  capital : Option ℚ
  address : Option String
  legal_situation : Option String
  special_situation : Option String
deriving DecidableEq, Repr

/-- One factor string appended by the scorers, one constructor per append
site in risk_analyst.py, carrying the interpolated payload. -/
inductive Factor where
  | noDocuments
  | noKpis
  | excellentRoa (v : ℚ)
  | goodRoa (v : ℚ)
  | acceptableRoa (v : ℚ)
  | lowRoa (v : ℚ)
  | lowDebt (v : ℚ)
  | controlledDebt (v : ℚ)
  | highDebt (v : ℚ)
  | goodLiquidity (v : ℚ)
  | adequateLiquidity (v : ℚ)
  | insufficientLiquidity (v : ℚ)
  | highMargin (v : ℚ)
  | adequateMargin (v : ℚ)
  | lossMaking (v : ℚ)
  | activeStatus
  | irregularStatus (situation : Option String)
  | established (years : ℚ)
  | operatingYears (years : ℚ)
  | recentCompany (years : ℚ)
  | legalIssues (n : ℕ)
  | negativeNews (n : ℕ)
  | positiveMentions (n : ℕ)
deriving DecidableEq, Repr

/-- The literal text of a factor as built in risk_analyst.py; numeric
formatting is abstracted by exact-rational printing. -/
def Factor.render : Factor → String
  | .noDocuments => "Nenhum documento financeiro analisado"
  | .noKpis => "Nenhum KPI financeiro extraído"
  | .excellentRoa v => "Excelente ROA: " ++ toString v ++ "%"
  | .goodRoa v => "Bom ROA: " ++ toString v ++ "%"
  | .acceptableRoa v => "ROA aceitável: " ++ toString v ++ "%"
  | .lowRoa v => "ROA baixo: " ++ toString v ++ "%"
  | .lowDebt v => "Baixo endividamento: " ++ toString v
  | .controlledDebt v => "Endividamento controlado: " ++ toString v
  | .highDebt v => "Alto endividamento: " ++ toString v
  | .goodLiquidity v => "Boa liquidez corrente: " ++ toString v
  | .adequateLiquidity v => "Liquidez adequada: " ++ toString v
  | .insufficientLiquidity v => "Liquidez insuficiente: " ++ toString v
  | .highMargin v => "Alta margem líquida: " ++ toString v ++ "%"
  | .adequateMargin v => "Margem líquida adequada: " ++ toString v ++ "%"
  | .lossMaking v => "Empresa com prejuízo: " ++ toString v ++ "%"
  | .activeStatus => "Empresa com situação cadastral ativa"
  | .irregularStatus o =>
      "Situação cadastral irregular: " ++ (match o with | some t => t | none => "None")
  | .established y => "Empresa estabelecida: " ++ toString y ++ " anos de operação"
  | .operatingYears y => "Empresa com " ++ toString y ++ " anos de operação"
  | .recentCompany y => "Empresa recente: " ++ toString y ++ " anos"
  | .legalIssues n => "Encontrados " ++ toString n ++ " indicadores de questões legais"
  | .negativeNews n => "Encontradas " ++ toString n ++ " menções negativas na mídia"
  | .positiveMentions n => "Encontradas " ++ toString n ++ " menções positivas"

/-- Consolidated assessment (schemas.RiskAnalysis). -/
structure RiskAnalysis where
  financial_health_score : ℚ
  non_financial_risk_score : ℚ
  overall_risk_score : ℚ
  positive_factors : List Factor
  negative_factors : List Factor
  recommendation : RiskDecision
  analysis_text : String
  confidence_level : ℚ
deriving DecidableEq, Repr

/-- The named boolean consistency checks computed by the quality gate
(quality_assurance._perform_consistency_checks), as a record in the
order the source inserts them. -/
structure ConsistencyChecks where
  company_data_available : Bool
  cnpj_consistency : Bool
  risk_analysis_present : Bool
  scores_in_valid_range : Bool
  recommendation_logic_consistent : Bool
  factors_have_evidence : Bool
  analysis_text_quality : Bool
  financial_data_available : Bool
deriving DecidableEq, Repr

/-- Quality validation report (schemas.QualityValidation). -/
structure QualityValidation where
  status : QualityStatus
  consistency_checks : ConsistencyChecks
  feedback : Option String
  validation_notes : List String
deriving DecidableEq, Repr

/-- Shared pipeline state (schemas.AgentState); raw uploaded documents
are abstracted to opaque handles. -/
structure AgentState where
  request_id : String
  cnpj : String
  documents : List String
  company_data : Option CompanyData
  web_search_results : List WebSearchResult
  document_analysis : List DocumentAnalysis
  risk_analysis : Option RiskAnalysis
  quality_validation : Option QualityValidation
  retry_count : ℕ
  max_retries : ℕ
  processing_notes : List String
deriving DecidableEq, Repr

/-- True when a character-list starts with the given needle. -/
def starts_with_chars : List Char → List Char → Bool
  | _, [] => true
  | [], _ :: _ => false
  | a :: as, b :: bs => a == b && starts_with_chars as bs

/-- True when the needle occurs contiguously inside the haystack;
models Python's substring `in` operator on strings. -/
def contains_chars : List Char → List Char → Bool
  | [], needle => needle.isEmpty
  | a :: as, needle => starts_with_chars (a :: as) needle || contains_chars as needle

/-- Case-sensitive substring test: Python `needle in hay`. -/
def contains_sub (hay needle : String) : Bool :=
  contains_chars hay.toList needle.toList

/-- Case-folded character list, modelling Python str.lower (identical on
the ASCII keywords the code searches for). -/
def lower_chars (l : List Char) : List Char :=
  l.map Char.toLower

/-- Case-insensitive substring test: Python `needle.lower() in hay.lower()`
(the code's keyword needles are already lowercase, so lowering the needle
is harmless there and required for the corporate-name test). -/
def containsKw (hay needle : String) : Bool :=
  contains_chars (lower_chars hay.toList) (lower_chars needle.toList)

/-- Python truthiness of an optional number: present and nonzero. -/
def truthyQ : Option ℚ → Bool
  | none => false
  | some v => v != 0

/-! ## Financial health scorer (risk_analyst._analyze_financial_health) -/

/-- ROA block of _analyze_financial_health: score delta, positive factors,
negative factors, using the thresholds from financial_thresholds. -/
def roa_adjustment (k : FinancialKPI) : ℚ × List Factor × List Factor :=
  match k.roa with
  | none => (0, [], [])
  | some roa =>
    if roa ≥ 15 then (1.5, [Factor.excellentRoa roa], [])
    else if roa ≥ 10 then (1, [Factor.goodRoa roa], [])
    else if roa ≥ 5 then (0.5, [Factor.acceptableRoa roa], [])
    else (-1, [], [Factor.lowRoa roa])

/-- Debt-to-equity block of _analyze_financial_health. -/
def debt_adjustment (k : FinancialKPI) : ℚ × List Factor × List Factor :=
  match k.debt_to_equity with
  | none => (0, [], [])
  | some d =>
    if d ≤ 0.5 then (1, [Factor.lowDebt d], [])
    else if d ≤ 1 then (0.5, [Factor.controlledDebt d], [])
    else if d ≤ 2 then (0, [], [])
    else (-1.5, [], [Factor.highDebt d])

/-- Current-ratio block of _analyze_financial_health. The guard is the
Python truthiness test `if latest_kpi.current_assets and
latest_kpi.current_liabilities`, so both operands must be present AND
nonzero for the block to run at all. -/
def liquidity_adjustment (k : FinancialKPI) : ℚ × List Factor × List Factor :=
  match k.current_assets, k.current_liabilities with
  | some a, some l =>
    if a = 0 ∨ l = 0 then (0, [], [])
    else
      let cr := a / l
      if cr ≥ 1.5 then (0.8, [Factor.goodLiquidity cr], [])
      else if cr ≥ 1 then (0.3, [Factor.adequateLiquidity cr], [])
      else (-1, [], [Factor.insufficientLiquidity cr])
  | _, _ => (0, [], [])

/-- Net-margin block of _analyze_financial_health; same truthiness guard
on net_profit and revenue. -/
def margin_adjustment (k : FinancialKPI) : ℚ × List Factor × List Factor :=
  match k.net_profit, k.revenue with
  | some np, some rev =>
    if np = 0 ∨ rev = 0 then (0, [], [])
    else
      let margin := np / rev * 100
      if margin ≥ 10 then (1, [Factor.highMargin margin], [])
      else if margin ≥ 5 then (0.5, [Factor.adequateMargin margin], [])
      else if margin < 0 then (-1.5, [], [Factor.lossMaking margin])
      else (0, [], [])
  | _, _ => (0, [], [])

/-- Un-clamped financial score for the latest indicator snapshot:
neutral baseline 5.0 plus the four independent additive blocks. -/
def financial_raw (k : FinancialKPI) : ℚ :=
  5 + (roa_adjustment k).1 + (debt_adjustment k).1
    + (liquidity_adjustment k).1 + (margin_adjustment k).1

/-- Score and factors computed from the latest snapshot; the final score
is clamped into the 0..10 range exactly once, at the end. -/
def financial_health_from_kpi (k : FinancialKPI) : ℚ × List Factor × List Factor :=
  (max 0 (min 10 (financial_raw k)),
   (roa_adjustment k).2.1 ++ (debt_adjustment k).2.1
     ++ (liquidity_adjustment k).2.1 ++ (margin_adjustment k).2.1,
   (roa_adjustment k).2.2 ++ (debt_adjustment k).2.2
     ++ (liquidity_adjustment k).2.2 ++ (margin_adjustment k).2.2)

/-- risk_analyst._analyze_financial_health: degraded fixed 3.0 when no
documents or no aggregated KPIs exist; otherwise scores the last
aggregated snapshot (list order, treated as most recent). -/
def analyze_financial_health (s : AgentState) : ℚ × List Factor × List Factor :=
  if s.document_analysis.isEmpty then
    (3, [], [Factor.noDocuments])
  else
    match ((s.document_analysis.map DocumentAnalysis.financial_kpis).flatten).getLast? with
    | none => (3, [], [Factor.noKpis])
    | some latest => financial_health_from_kpi latest

/-! ## Non-financial risk scorer (risk_analyst._analyze_non_financial_risks) -/

/-- Registry-status block: the Python guard is
`if company.legal_situation and 'ativa' in company.legal_situation.lower()`,
i.e. a present, nonempty status text containing the active marker. -/
def status_adjustment (c : CompanyData) : ℚ × List Factor × List Factor :=
  match c.legal_situation with
  | some sit =>
    if sit ≠ "" ∧ containsKw sit "ativa" = true then (0, [Factor.activeStatus], [])
    else (-2, [], [Factor.irregularStatus (some sit)])
  | none => (-2, [], [Factor.irregularStatus none])

/-- Longevity block: years of operation are (now - registration).days / 365. -/
def longevity_adjustment (now : ℤ) (c : CompanyData) : ℚ × List Factor × List Factor :=
  match c.registration_date with
  | none => (0, [], [])
  | some reg =>
    let years : ℚ := ((now - reg : ℤ) : ℚ) / 365
    if years ≥ 5 then (1, [Factor.established years], [])
    else if years ≥ 2 then (0, [Factor.operatingYears years], [])
    else (-0.5, [], [Factor.recentCompany years])

/-- Combined registry block (runs only when company data is present). -/
def company_adjustment (now : ℤ) : Option CompanyData → ℚ × List Factor × List Factor
  | none => (0, [], [])
  | some c =>
    ((status_adjustment c).1 + (longevity_adjustment now c).1,
     (status_adjustment c).2.1 ++ (longevity_adjustment now c).2.1,
     (status_adjustment c).2.2 ++ (longevity_adjustment now c).2.2)

/-- Keyword buckets used by the web-result scan. -/
def legal_keywords : List String :=
  ["processo", "execução", "falência", "recuperação judicial", "dívida"]

/-- Adverse-media keywords. -/
def negative_keywords : List String :=
  ["fraude", "irregularidade", "multa", "penalidade", "investigação"]

/-- Positive-mention keywords. -/
def positive_keywords : List String :=
  ["prêmio", "expansão", "crescimento", "inovação", "sucesso"]

/-- Python `any(keyword in content_lower for keyword in kws)`. -/
def matches_any (content : String) (kws : List String) : Bool :=
  kws.any (fun kw => containsKw content kw)

/-- Count of web results whose content hits the legal-risk bucket. -/
def legal_issues_count (web : List WebSearchResult) : ℕ :=
  web.countP (fun r => matches_any r.content legal_keywords)

/-- Count of web results whose content hits the adverse-media bucket. -/
def negative_news_count (web : List WebSearchResult) : ℕ :=
  web.countP (fun r => matches_any r.content negative_keywords)

/-- Count of web results whose content hits the positive-mention bucket. -/
def positive_mentions_count (web : List WebSearchResult) : ℕ :=
  web.countP (fun r => matches_any r.content positive_keywords)

/-- Capped legal-issue penalty: min(count * 1.5, 3.0) when count > 0. -/
def legal_penalty (n : ℕ) : ℚ :=
  if 0 < n then min ((n : ℚ) * 1.5) 3 else 0

/-- Capped adverse-media penalty: min(count * 1.0, 2.0) when count > 0. -/
def news_penalty (n : ℕ) : ℚ :=
  if 0 < n then min ((n : ℚ) * 1) 2 else 0

/-- Capped positive-mention bonus: min(count * 0.5, 1.0) when count > 0. -/
def mentions_bonus (n : ℕ) : ℚ :=
  if 0 < n then min ((n : ℚ) * 0.5) 1 else 0

/-- Un-clamped non-financial score: low-risk baseline 7.0, registry
adjustments, web penalties and bonus. -/
def nonfinancial_raw (now : ℤ) (s : AgentState) : ℚ :=
  7 + (company_adjustment now s.company_data).1
    - legal_penalty (legal_issues_count s.web_search_results)
    - news_penalty (negative_news_count s.web_search_results)
    + mentions_bonus (positive_mentions_count s.web_search_results)

/-- risk_analyst._analyze_non_financial_risks: score clamped once at the
end; factor lists in source append order (registry factors first, then
the aggregated web-bucket factors). -/
def analyze_non_financial_risks (now : ℤ) (s : AgentState) : ℚ × List Factor × List Factor :=
  let li := legal_issues_count s.web_search_results
  let nn := negative_news_count s.web_search_results
  let pm := positive_mentions_count s.web_search_results
  (max 0 (min 10 (nonfinancial_raw now s)),
   (company_adjustment now s.company_data).2.1
     ++ (if 0 < pm then [Factor.positiveMentions pm] else []),
   (company_adjustment now s.company_data).2.2
     ++ (if 0 < li then [Factor.legalIssues li] else [])
     ++ (if 0 < nn then [Factor.negativeNews nn] else []))

/-! ## Recommendation resolver (risk_analyst._determine_recommendation) -/

/-- risk_analyst._determine_recommendation, argument order as in the
source: overall first, then financial, then non-financial. -/
def determine_recommendation (overall financial nonFinancial : ℚ) : RiskDecision :=
  if financial ≤ 2 then RiskDecision.reject
  else if nonFinancial ≤ 3 then RiskDecision.reject
  else if overall ≥ 7.5 then RiskDecision.approve
  else if overall ≥ 5.5 then RiskDecision.review
  else RiskDecision.reject

/-- The recommendation rules exactly as the specification words them
(section 4.3): a numbered precedence list, first match wins. Used only
to compare the spec text against the source function. -/
def spec_recommendation (financial nonFinancial overall : ℚ) : RiskDecision :=
  if financial ≤ 2 then RiskDecision.reject
  else if nonFinancial ≤ 3 then RiskDecision.reject
  else if overall ≥ 7.5 then RiskDecision.approve
  else if overall ≥ 5.5 then RiskDecision.review
  else RiskDecision.reject

/-! ## Risk analyst execute (risk_analyst.RiskAnalystAgent.execute) -/

/-- risk_analyst._calculate_confidence_level. -/
def calculate_confidence_level (s : AgentState) : ℚ :=
  let c1 : ℚ := if s.company_data.isSome then 0.2 else 0
  let c2 : ℚ :=
    if s.document_analysis.isEmpty then 0
    else ((s.document_analysis.map DocumentAnalysis.confidence_score).sum
            / (s.document_analysis.length : ℚ)) * 0.5
  let c3 : ℚ :=
    if s.web_search_results.isEmpty then 0
    else min ((s.web_search_results.length : ℚ) / 10) 0.2
  let total_kpis := (s.document_analysis.map (fun d => d.financial_kpis.length)).sum
  let c4 : ℚ := if 0 < total_kpis then min ((total_kpis : ℚ) / 5) 0.1 else 0
  min (c1 + c2 + c3 + c4) 1

/-- The RiskAnalysis value assembled by RiskAnalystAgent.execute from the
state's evidence; the LLM narrative enters as the text parameter. -/
def risk_assessment_of (text : String) (now : ℤ) (s : AgentState) : RiskAnalysis :=
  let fin := analyze_financial_health s
  let nf := analyze_non_financial_risks now s
  let overall := fin.1 * 0.7 + nf.1 * 0.3
  { financial_health_score := fin.1
    non_financial_risk_score := nf.1
    overall_risk_score := overall
    positive_factors := fin.2.1 ++ nf.2.1
    negative_factors := fin.2.2 ++ nf.2.2
    recommendation := determine_recommendation overall fin.1 nf.1
    analysis_text := text
    confidence_level := calculate_confidence_level s }

/-- RiskAnalystAgent.execute on its success path: stores the fresh
assessment and appends its processing notes (note text with numeric
formatting abstracted). -/
def risk_analyst_execute (text : String) (now : ℤ) (s : AgentState) : AgentState :=
  let ra := risk_assessment_of text now s
  { s with
      risk_analysis := some ra
      processing_notes := s.processing_notes
        ++ ["[RiskAnalyst] Iniciando análise de risco consolidada",
            "[RiskAnalyst] Análise concluída: " ++ ra.recommendation.value] }

/-- credit_analysis_graph._risk_analyst_node: when quality feedback is
present, append it to the log and reset the validation, then run the
risk analyst. -/
def risk_analyst_node (text : String) (now : ℤ) (s : AgentState) : AgentState :=
  let s1 :=
    match s.quality_validation with
    | some qv =>
      match qv.feedback with
      | some fb =>
        { s with
            processing_notes := s.processing_notes ++ ["Feedback QA: " ++ fb]
            quality_validation := none }
      | none => s
    | none => s
  risk_analyst_execute text now s1

/-! ## Quality assurance gate (quality_assurance.QualityAssuranceAgent) -/

/-- quality_assurance._check_recommendation_logic: four one-sided
consistency rules over the stored scores and recommendation. -/
def check_recommendation_logic (s : AgentState) : Bool :=
  match s.risk_analysis with
  | none => false
  | some ra =>
    if ra.overall_risk_score ≥ 7.5 ∧ ra.recommendation.value ≠ "approve" then false
    else if ra.overall_risk_score ≤ 4 ∧ ra.recommendation.value ≠ "reject" then false
    else if ra.financial_health_score ≤ 2 ∧ ra.recommendation.value = "approve" then false
    else if ra.non_financial_risk_score ≤ 3 ∧ ra.recommendation.value = "approve" then false
    else true

/-- quality_assurance._check_factors_evidence: the stored negative
factors are scanned (case-folded) for financial-ratio terms and for
legal terms; each mention must be backed by the matching evidence kind. -/
def check_factors_evidence (s : AgentState) : Bool :=
  match s.risk_analysis with
  | none => false
  | some ra =>
    let neg := ra.negative_factors
    let finMention := neg.any (fun f =>
      containsKw (Factor.render f) "roa" || containsKw (Factor.render f) "endividamento"
        || containsKw (Factor.render f) "liquidez")
    if finMention && s.document_analysis.isEmpty then false
    else
      let legalMention := neg.any (fun f =>
        containsKw (Factor.render f) "processo" || containsKw (Factor.render f) "legal")
      if legalMention && s.web_search_results.isEmpty then false
      else true

/-- quality_assurance._check_analysis_text_quality: nonempty narrative of
at least 100 characters with at least 3 sentence marks, mentioning the
request tax id (case-sensitive) or the registry corporate name
(case-folded). -/
def check_analysis_text_quality (s : AgentState) : Bool :=
  match s.risk_analysis with
  | none => false
  | some ra =>
    if ra.analysis_text = "" then false
    else if ra.analysis_text.length < 100 then false
    else if ra.analysis_text.toList.count '.' < 3 then false
    else if contains_sub ra.analysis_text s.cnpj then true
    else
      match s.company_data with
      | some c =>
        if c.corporate_name ≠ "" ∧ containsKw ra.analysis_text c.corporate_name = true
        then true else false
      | none => false

/-- quality_assurance._check_financial_data_availability. -/
def check_financial_data_availability (s : AgentState) : Bool :=
  if s.document_analysis.isEmpty then false
  else s.document_analysis.any (fun d => !d.financial_kpis.isEmpty)

/-- quality_assurance._perform_consistency_checks. -/
def perform_consistency_checks (s : AgentState) : ConsistencyChecks :=
  { company_data_available := s.company_data.isSome
    cnpj_consistency :=
      match s.company_data with
      | some c =>
        if s.cnpj.toList.filter Char.isDigit = c.cnpj.toList.filter Char.isDigit
        then true else false
      | none => false
    risk_analysis_present := s.risk_analysis.isSome
    scores_in_valid_range :=
      match s.risk_analysis with
      | some ra =>
        if 0 ≤ ra.financial_health_score ∧ ra.financial_health_score ≤ 10
             ∧ 0 ≤ ra.non_financial_risk_score ∧ ra.non_financial_risk_score ≤ 10
             ∧ 0 ≤ ra.overall_risk_score ∧ ra.overall_risk_score ≤ 10
        then true else false
      | none => false
    recommendation_logic_consistent := check_recommendation_logic s
    factors_have_evidence := check_factors_evidence s
    analysis_text_quality := check_analysis_text_quality s
    financial_data_available := check_financial_data_availability s }

/-- The check outcomes in source insertion order. -/
def checks_list (c : ConsistencyChecks) : List Bool :=
  [c.company_data_available, c.cnpj_consistency, c.risk_analysis_present,
   c.scores_in_valid_range, c.recommendation_logic_consistent,
   c.factors_have_evidence, c.analysis_text_quality, c.financial_data_available]

/-- The four important checks in source order. -/
def important_checks (c : ConsistencyChecks) : List Bool :=
  [c.company_data_available, c.cnpj_consistency,
   c.factors_have_evidence, c.analysis_text_quality]

/-- quality_assurance._determine_quality_status: any failed critical
check rejects outright; otherwise reject exactly when the failed
important checks outnumber half of them (integer division). -/
def determine_quality_status (c : ConsistencyChecks) : QualityStatus :=
  if !c.risk_analysis_present || !c.scores_in_valid_range
       || !c.recommendation_logic_consistent then
    QualityStatus.rejected
  else if (important_checks c).length / 2 < (important_checks c).count false then
    QualityStatus.rejected
  else
    QualityStatus.approved

/-- quality_assurance._generate_validation_notes. -/
def generate_validation_notes (c : ConsistencyChecks) : List String :=
  ["Verificações de qualidade: " ++ toString ((checks_list c).count true)
     ++ "/" ++ toString (checks_list c).length ++ " aprovadas"]
  ++ (if c.company_data_available then []
      else ["Dados da empresa não disponíveis - pode afetar qualidade da análise"])
  ++ (if c.financial_data_available then []
      else ["Dados financeiros limitados - análise baseada em informações públicas"])
  ++ (if c.recommendation_logic_consistent then
        ["Lógica de recomendação consistente com scores calculados"] else [])
  ++ (if c.analysis_text_quality then
        ["Qualidade do texto de análise aprovada"] else [])

/-- QualityAssuranceAgent.execute on its success path: with no stored
assessment it only logs and returns the state unchanged (no report is
created); otherwise it computes the checks, resolves the status, attaches
feedback exactly when rejected (the feedback text comes from the LLM or
its deterministic fallback and enters as the fb parameter), and stores
the report. The checks read none of the fields the log prepends touch. -/
def quality_assurance_execute (fb : String) (s : AgentState) : AgentState :=
  match s.risk_analysis with
  | none =>
    { s with
        processing_notes := s.processing_notes
          ++ ["[QualityAssurance] Iniciando validação de qualidade",
              "[QualityAssurance] Nenhuma análise de risco encontrada para validar"] }
  | some _ =>
    let checks := perform_consistency_checks s
    let status := determine_quality_status checks
    { s with
        quality_validation := some
          { status := status
            consistency_checks := checks
            feedback := if status = QualityStatus.rejected then some fb else none
            validation_notes := generate_validation_notes checks }
        processing_notes := s.processing_notes
          ++ ["[QualityAssurance] Iniciando validação de qualidade",
              "[QualityAssurance] Validação concluída: "
                ++ (match status with
                    | QualityStatus.approved => "approved"
                    | QualityStatus.rejected => "rejected")] }

/-! ## Orchestration (credit_analysis_graph) -/

/-- The two conditional-edge outcomes of the quality-assurance node. -/
inductive RouteDecision where
  | retry
  | finish
deriving DecidableEq, Repr

/-- credit_analysis_graph._should_retry_analysis: finish when no report
or an approved report is present; retry while the retry counter is below
the ceiling; otherwise finish with the rejected report. -/
def should_retry_analysis (s : AgentState) : RouteDecision :=
  match s.quality_validation with
  | none => RouteDecision.finish
  | some qv =>
    if qv.status = QualityStatus.approved then RouteDecision.finish
    else if s.retry_count < s.max_retries then RouteDecision.retry
    else RouteDecision.finish

/-- One Scoring-plus-Validating pipeline pass: the risk-analyst node
followed by the quality-assurance node. -/
def pipeline_pass (text fb : String) (now : ℤ) (s : AgentState) : AgentState :=
  quality_assurance_execute fb (risk_analyst_node text now s)

/-- The state after n Scoring-plus-Validating passes of the retry loop. -/
def pipeline_trace (text fb : String) (now : ℤ) (s0 : AgentState) : ℕ → AgentState
  | 0 => s0
  | n + 1 => pipeline_pass text fb now (pipeline_trace text fb now s0 n)

/-! ## Stage-local error handling (base_agent.BaseAgent) -/

/-- base_agent.BaseAgent.should_retry. -/
def base_should_retry (s : AgentState) : Bool :=
  s.retry_count < s.max_retries

/-- base_agent.BaseAgent.increment_retry: bumps the shared retry counter
and logs the attempt. -/
def increment_retry (agent : String) (s : AgentState) : AgentState :=
  { s with
      retry_count := s.retry_count + 1
      processing_notes := s.processing_notes
        ++ ["[" ++ agent ++ "] Tentativa " ++ toString (s.retry_count + 1)
              ++ "/" ++ toString s.max_retries] }

/-- base_agent.BaseAgent.handle_error, state effect only: logs the error;
if the budget allows, increments the counter and re-runs the same stage on
the returned state (some); otherwise the error propagates (none). -/
def handle_error_step (agent err : String) (s : AgentState) : Option AgentState :=
  let s1 := { s with
      processing_notes := s.processing_notes ++ ["[" ++ agent ++ "] Erro no agente "
        ++ agent ++ ": " ++ err] }
  if base_should_retry s1 then some (increment_retry agent s1) else none

/-! ## Concrete states used by the witnesses and counterexamples -/

/-- An indicator snapshot with every numeric field absent. -/
def kpiEmpty : FinancialKPI :=
  { revenue := none, gross_profit := none, operating_profit := none,
    net_profit := none, total_assets := none, total_liabilities := none,
    equity := none, current_assets := none, current_liabilities := none,
    debt_to_equity := none, roa := none, roe := none, period := "2023" }

/-- A snapshot whose current assets are exactly zero while current
liabilities are present and nonzero. -/
def kpiZeroAssets : FinancialKPI :=
  { kpiEmpty with current_assets := some 0, current_liabilities := some 100 }

/-- A state carrying only the zero-current-assets snapshot. -/
def sZeroAssets : AgentState :=
  { request_id := "r1", cnpj := "12345678000199", documents := [],
    company_data := none, web_search_results := [],
    document_analysis :=
      [{ document_type := DocumentType.balance_sheet,
         financial_kpis := [kpiZeroAssets],
         extracted_text_sample := "", confidence_score := 0.9,
         processing_notes := [] }],
    risk_analysis := none, quality_validation := none,
    retry_count := 0, max_retries := 3, processing_notes := [] }

/-- A stored assessment whose recommendation agrees with the resolver
(financial 1.0 forces Reject) but whose high stored overall score makes
the gate's first consistency rule fire. -/
def raHardFloor : RiskAnalysis :=
  { financial_health_score := 1, non_financial_risk_score := 9,
    overall_risk_score := 9, positive_factors := [], negative_factors := [],
    recommendation := RiskDecision.reject, analysis_text := "t",
    confidence_level := 1 }

/-- A state carrying raHardFloor. -/
def sHardFloor : AgentState :=
  { request_id := "r2", cnpj := "12345678000199", documents := [],
    company_data := none, web_search_results := [], document_analysis := [],
    risk_analysis := some raHardFloor, quality_validation := none,
    retry_count := 0, max_retries := 3, processing_notes := [] }

/-- A state with no assessment at all. -/
def sNoAssessment : AgentState :=
  { request_id := "r3", cnpj := "12345678000199", documents := [],
    company_data := none, web_search_results := [], document_analysis := [],
    risk_analysis := none, quality_validation := none,
    retry_count := 0, max_retries := 3, processing_notes := [] }

/-- An assessment with overall 8.5 and recommendation Reject (the
spec's critical-short-circuit example). -/
def raInconsistent : RiskAnalysis :=
  { financial_health_score := 8.5, non_financial_risk_score := 8.5,
    overall_risk_score := 8.5, positive_factors := [], negative_factors := [],
    recommendation := RiskDecision.reject, analysis_text := "t",
    confidence_level := 1 }

/-- A state carrying raInconsistent. -/
def sInconsistent : AgentState :=
  { sNoAssessment with request_id := "r4", risk_analysis := some raInconsistent }

/-- The initial pipeline state of a request with no registry data, no
documents and no web results: on it the gate deterministically rejects
every pass (missing company data, tax-id mismatch, degenerate narrative). -/
def sInit : AgentState :=
  { request_id := "r5", cnpj := "12345678000199", documents := [],
    company_data := none, web_search_results := [], document_analysis := [],
    risk_analysis := none, quality_validation := none,
    retry_count := 0, max_retries := 3, processing_notes := [] }

/-- A rejected validation with feedback attached, as the gate produces on
the reject path. -/
def qvRejected : QualityValidation :=
  { status := QualityStatus.rejected,
    consistency_checks :=
      { company_data_available := false, cnpj_consistency := false,
        risk_analysis_present := true, scores_in_valid_range := true,
        recommendation_logic_consistent := true, factors_have_evidence := true,
        analysis_text_quality := false, financial_data_available := false },
    feedback := some "fb", validation_notes := [] }

/-- A mid-pipeline state whose latest quality report is Rejected and whose
retry budget is untouched. -/
def sRejectedPending : AgentState :=
  { sInit with
    request_id := "r6", risk_analysis := some raHardFloor,
    quality_validation := some qvRejected }

/-- Registry record of an active company registered 2190 days (six
365-day years) before day 2190. -/
def cActive : CompanyData :=
  { cnpj := "12345678000199", corporate_name := "ACME LTDA", trade_name := none,
    legal_nature := none, main_activity := none, registration_date := some 0,
    capital := none, address := none, legal_situation := some "ATIVA",
    special_situation := none }

/-- State with cActive as registry record and no web results. -/
def sActive : AgentState :=
  { sInit with request_id := "r7", company_data := some cActive }

/-- Important-check vector with exactly three of the four important
checks failing (company data, tax-id match, evidence support) and all
critical checks passing. -/
def cThreeFail : ConsistencyChecks :=
  { company_data_available := false, cnpj_consistency := false,
    risk_analysis_present := true, scores_in_valid_range := true,
    recommendation_logic_consistent := true, factors_have_evidence := false,
    analysis_text_quality := true, financial_data_available := true }

/-- A snapshot whose only present indicators are current assets 30 and
current liabilities 20 (ratio 1.5). -/
def kpiLiquid : FinancialKPI :=
  { kpiEmpty with current_assets := some 30, current_liabilities := some 20 }

/-! ## Theorems -/

/-- C2: the Recommendation Resolver is the pure precedence rule list of
section 4.3 (first match wins), and it sends the four sample score
triples (financial, non-financial, overall) to Reject, Approve, Review,
Reject respectively. -/
theorem recommendation_resolver_precedence :
    (∀ financial nonFinancial overall : ℚ,
       determine_recommendation overall financial nonFinancial
         = spec_recommendation financial nonFinancial overall) ∧
    determine_recommendation 9 1 9 = RiskDecision.reject ∧
    determine_recommendation 7.6 7 8 = RiskDecision.approve ∧
    determine_recommendation 6 6 6 = RiskDecision.review ∧
    determine_recommendation 4 4 4 = RiskDecision.reject := by
  refine ⟨fun _ _ _ => rfl, ?_, ?_, ?_, ?_⟩ <;> norm_num [determine_recommendation]

/-- C3 counterexample: for the stored assessment (financial 1, non-
financial 9, overall 9, recommendation Reject) the stored recommendation
equals what the Recommendation Resolver re-derives for these scores, yet
the gate's recommendation-consistency check fails - so the check is not
"passes iff the stored recommendation equals the re-derived one". -/
theorem recommendation_consistency_not_rederivation :
    sHardFloor.risk_analysis = some raHardFloor ∧
    raHardFloor.recommendation
      = determine_recommendation raHardFloor.overall_risk_score
          raHardFloor.financial_health_score raHardFloor.non_financial_risk_score ∧
    check_recommendation_logic sHardFloor = false := by
  refine ⟨rfl, ?_, ?_⟩
  · norm_num [determine_recommendation, raHardFloor]
  · norm_num [check_recommendation_logic, sHardFloor, raHardFloor, RiskDecision.value]

/-- C3 amended: the recommendation-consistency check passes iff none of
the gate's four one-sided rules fires: overall at least 7.5 forces
Approve, overall at most 4.0 forces Reject, and either hard floor
(financial at most 2.0, non-financial at most 3.0) forbids Approve; this
is strictly weaker than re-deriving the recommendation with the section
4.3 precedence rules. -/
theorem recommendation_consistency_amended
    (s : AgentState) (ra : RiskAnalysis) (h : s.risk_analysis = some ra) :
    check_recommendation_logic s = true ↔
      ((ra.overall_risk_score ≥ 7.5 → ra.recommendation = RiskDecision.approve) ∧
       (ra.overall_risk_score ≤ 4 → ra.recommendation = RiskDecision.reject) ∧
       (ra.financial_health_score ≤ 2 → ra.recommendation ≠ RiskDecision.approve) ∧
       (ra.non_financial_risk_score ≤ 3 → ra.recommendation ≠ RiskDecision.approve)) := by
  cases hrec : ra.recommendation <;>
    simp [check_recommendation_logic, h, hrec, RiskDecision.value]

/-- C3 amended witness at the hard-floor assessment: the check fails
there because the first rule fires (overall 9 with a non-Approve stored
recommendation). -/
theorem recommendation_consistency_amended_witness :
    ¬ (check_recommendation_logic sHardFloor = true ∧
       (raHardFloor.overall_risk_score ≥ 7.5 →
          raHardFloor.recommendation = RiskDecision.approve)) := by
  intro hcontra
  have h := (recommendation_consistency_amended sHardFloor raHardFloor rfl).mp hcontra.1
  exact absurd (h.1 (by norm_num [raHardFloor])) (by decide)

/-- C5: once the three critical checks pass, the gate's status is
Rejected exactly when strictly more than half of the four important
checks fail (integer half of 4 is 2, so 3 or 4 failures reject and 2 or
fewer approve). -/
theorem quality_gate_important_majority
    (c : ConsistencyChecks)
    (h1 : c.risk_analysis_present = true)
    (h2 : c.scores_in_valid_range = true)
    (h3 : c.recommendation_logic_consistent = true) :
    (determine_quality_status c = QualityStatus.rejected ↔
       2 < (important_checks c).count false) ∧
    (determine_quality_status c = QualityStatus.approved ↔
       (important_checks c).count false ≤ 2) := by
  simp only [determine_quality_status, h1, h2, h3, Bool.not_true, Bool.or_self,
    Bool.false_or, Bool.or_false, if_false]
  norm_num [important_checks]
  constructor <;> simp

/-- C5 witness: with exactly three of the four important checks failing
the gate rejects. -/
theorem quality_gate_important_majority_witness :
    determine_quality_status cThreeFail = QualityStatus.rejected :=
  (quality_gate_important_majority cThreeFail rfl rfl rfl).1.mpr (by decide)

/-- C6 counterexample: with current assets exactly 0 and current
liabilities 100 the Python truthiness guard skips the liquidity block,
so no adjustment and no insufficient-liquidity factor are produced (the
score stays at the 5.0 baseline instead of dropping to 4.0). -/
theorem liquidity_skipped_on_zero_assets :
    kpiZeroAssets.current_assets = some 0 ∧
    kpiZeroAssets.current_liabilities = some 100 ∧
    liquidity_adjustment kpiZeroAssets = (0, [], []) ∧
    analyze_financial_health sZeroAssets = (5, [], []) := by
  refine ⟨rfl, rfl, ?_, ?_⟩
  · norm_num [liquidity_adjustment, kpiZeroAssets, kpiEmpty]
  · norm_num [analyze_financial_health, sZeroAssets, kpiZeroAssets, kpiEmpty,
      financial_health_from_kpi, financial_raw, roa_adjustment, debt_adjustment,
      liquidity_adjustment, margin_adjustment, List.getLast?]

/-- C6 amended: the current-ratio adjustment runs exactly when both
current assets and current liabilities are present and nonzero (Python
truthiness of both operands), and then adds 0.8 for ratio at least 1.5,
0.3 for ratio in [1.0, 1.5), and subtracts 1.0 with the insufficient-
liquidity factor for ratio below 1.0; in particular zero current assets
with nonzero liabilities yield no adjustment at all. -/
theorem liquidity_adjustment_amended (k : FinancialKPI) :
    (liquidity_adjustment k = (0, [], []) ↔
       ¬(truthyQ k.current_assets = true ∧ truthyQ k.current_liabilities = true)) ∧
    (∀ a l : ℚ, k.current_assets = some a → k.current_liabilities = some l →
       a ≠ 0 → l ≠ 0 →
       liquidity_adjustment k =
         (if a / l ≥ 1.5 then ((0.8 : ℚ), [Factor.goodLiquidity (a / l)], ([] : List Factor))
          else if a / l ≥ 1 then ((0.3 : ℚ), [Factor.adequateLiquidity (a / l)], [])
          else ((-1 : ℚ), [], [Factor.insufficientLiquidity (a / l)]))) := by
  constructor
  · cases ha : k.current_assets with
    | none => simp [liquidity_adjustment, truthyQ, ha]
    | some a =>
      cases hl : k.current_liabilities with
      | none => simp [liquidity_adjustment, truthyQ, ha, hl]
      | some l =>
        simp only [liquidity_adjustment, truthyQ, ha, hl]
        by_cases hz : a = 0 ∨ l = 0
        · simp [hz]
          rcases hz with hz | hz <;> simp [hz]
        · push_neg at hz
          simp only [if_neg (by tauto : ¬(a = 0 ∨ l = 0))]
          split_ifs with hge hge2 <;>
            simp [hz.1, hz.2, Prod.ext_iff]
  · intro a l ha hl hane hlne
    simp only [liquidity_adjustment, ha, hl, if_neg (by tauto : ¬(a = 0 ∨ l = 0))]

/-- C6 amended witness: assets 30 over liabilities 20 give ratio 1.5 and
the +0.8 good-liquidity adjustment. -/
theorem liquidity_adjustment_amended_witness :
    liquidity_adjustment kpiLiquid
      = (0.8, [Factor.goodLiquidity ((30 : ℚ) / 20)], []) := by
  have h := (liquidity_adjustment_amended kpiLiquid).2 30 20 rfl rfl
    (by norm_num) (by norm_num)
  rw [h, if_pos (by norm_num)]

/-- C7: with no web results and an active registry record registered
2190 days (six 365-day years) earlier, the non-financial score is
exactly 8.0 = 7.0 + 1.0 and the positive list holds exactly the active-
status note and the longevity factor, with no negative factors. -/
theorem nonfinancial_active_six_year_score
    (now reg : ℤ) (c : CompanyData) (s : AgentState) (sit : String)
    (hc : s.company_data = some c)
    (hw : s.web_search_results = [])
    (hsit : c.legal_situation = some sit)
    (hne : sit ≠ "")
    (hkw : containsKw sit "ativa" = true)
    (hreg : c.registration_date = some reg)
    (hyears : now - reg = 2190) :
    analyze_non_financial_risks now s
      = (8, [Factor.activeStatus, Factor.established 6], []) := by
  have hyq : ((now - reg : ℤ) : ℚ) / 365 = 6 := by
    rw [hyears]; norm_num
  simp only [analyze_non_financial_risks, nonfinancial_raw, company_adjustment,
    status_adjustment, longevity_adjustment, legal_issues_count,
    negative_news_count, positive_mentions_count, legal_penalty, news_penalty,
    mentions_bonus, hc, hw, hsit, hreg, hyq]
  simp [hne, hkw]
  norm_num

/-- C7 witness: the concrete active six-year-old registry record scores
8.0 with exactly the two expected positive entries. -/
theorem nonfinancial_active_six_year_score_witness :
    analyze_non_financial_risks 2190 sActive
      = (8, [Factor.activeStatus, Factor.established 6], []) :=
  nonfinancial_active_six_year_score 2190 0 cActive sActive "ATIVA"
    rfl rfl rfl (by decide) (by decide) rfl (by decide)

/-- The financial scorer reads only the per-document analyses of the
state. -/
theorem analyze_financial_health_congr {s1 s2 : AgentState}
    (hd : s1.document_analysis = s2.document_analysis) :
    analyze_financial_health s1 = analyze_financial_health s2 := by
  simp only [analyze_financial_health, hd]

/-- The non-financial scorer reads only the registry record and the web
results of the state. -/
theorem analyze_non_financial_risks_congr (now : ℤ) {s1 s2 : AgentState}
    (hc : s1.company_data = s2.company_data)
    (hw : s1.web_search_results = s2.web_search_results) :
    analyze_non_financial_risks now s1 = analyze_non_financial_risks now s2 := by
  simp only [analyze_non_financial_risks, nonfinancial_raw, hc, hw]

/-- The confidence level reads only the evidence fields of the state. -/
theorem calculate_confidence_level_congr {s1 s2 : AgentState}
    (hc : s1.company_data = s2.company_data)
    (hw : s1.web_search_results = s2.web_search_results)
    (hd : s1.document_analysis = s2.document_analysis) :
    calculate_confidence_level s1 = calculate_confidence_level s2 := by
  simp only [calculate_confidence_level, hc, hw, hd]

/-- The assembled assessment is a function of the narrative text, the
evaluation time and the three evidence fields alone. -/
theorem risk_assessment_of_congr (text : String) (now : ℤ) {s1 s2 : AgentState}
    (hc : s1.company_data = s2.company_data)
    (hw : s1.web_search_results = s2.web_search_results)
    (hd : s1.document_analysis = s2.document_analysis) :
    risk_assessment_of text now s1 = risk_assessment_of text now s2 := by
  unfold risk_assessment_of
  rw [analyze_financial_health_congr hd, analyze_non_financial_risks_congr now hc hw,
    calculate_confidence_level_congr hc hw hd]

/-- C9: the Scoring stage's factor computation is a deterministic pure
function of the upstream evidence: two states agreeing on the registry
record, the web results and the document analyses (and evaluated at the
same time) produce identical scorer outputs, and the two assembled
assessments carry identical positive-factor and negative-factor lists
even when the narrative texts differ. -/
theorem scoring_factors_deterministic
    (t1 t2 : String) (now : ℤ) (s1 s2 : AgentState)
    (hc : s1.company_data = s2.company_data)
    (hw : s1.web_search_results = s2.web_search_results)
    (hd : s1.document_analysis = s2.document_analysis) :
    analyze_financial_health s1 = analyze_financial_health s2 ∧
    analyze_non_financial_risks now s1 = analyze_non_financial_risks now s2 ∧
    (risk_assessment_of t1 now s1).positive_factors
      = (risk_assessment_of t2 now s2).positive_factors ∧
    (risk_assessment_of t1 now s1).negative_factors
      = (risk_assessment_of t2 now s2).negative_factors := by
  refine ⟨analyze_financial_health_congr hd,
    analyze_non_financial_risks_congr now hc hw, ?_, ?_⟩ <;>
    simp only [risk_assessment_of, analyze_financial_health_congr hd,
      analyze_non_financial_risks_congr now hc hw]

/-- C9 witness: a fresh state and a mid-pipeline state (different notes,
retry counter and stored assessment) with the same evidence yield the
same factor lists under different narratives. -/
theorem scoring_factors_deterministic_witness :
    (risk_assessment_of "narrative one" 0 sInit).positive_factors
      = (risk_assessment_of "narrative two" 0
          { sInit with
            retry_count := 2, processing_notes := ["x"],
            risk_analysis := some raHardFloor }).positive_factors :=
  (scoring_factors_deterministic "narrative one" "narrative two" 0 sInit
    { sInit with
      retry_count := 2, processing_notes := ["x"],
      risk_analysis := some raHardFloor } rfl rfl rfl).2.2.1

/-- The ROA block adds at most 1.5. -/
theorem roa_adjustment_le (k : FinancialKPI) : (roa_adjustment k).1 ≤ 1.5 := by
  unfold roa_adjustment
  cases k.roa
  · norm_num
  · dsimp only
    split_ifs <;> norm_num

/-- The debt block adds at most 1.0. -/
theorem debt_adjustment_le (k : FinancialKPI) : (debt_adjustment k).1 ≤ 1 := by
  unfold debt_adjustment
  cases k.debt_to_equity
  · norm_num
  · dsimp only
    split_ifs <;> norm_num

/-- The liquidity block adds at most 0.8. -/
theorem liquidity_adjustment_le (k : FinancialKPI) : (liquidity_adjustment k).1 ≤ 0.8 := by
  unfold liquidity_adjustment
  cases k.current_assets <;> cases k.current_liabilities <;> dsimp only <;>
    try norm_num
  split_ifs <;> norm_num

/-- The margin block adds at most 1.0. -/
theorem margin_adjustment_le (k : FinancialKPI) : (margin_adjustment k).1 ≤ 1 := by
  unfold margin_adjustment
  cases k.net_profit <;> cases k.revenue <;> dsimp only <;> try norm_num
  split_ifs <;> norm_num

/-- The un-clamped financial score never exceeds 9.3 = 5 + 1.5 + 1 + 0.8 + 1. -/
theorem financial_raw_le (k : FinancialKPI) : financial_raw k ≤ 9.3 := by
  have h1 := roa_adjustment_le k
  have h2 := debt_adjustment_le k
  have h3 := liquidity_adjustment_le k
  have h4 := margin_adjustment_le k
  unfold financial_raw
  norm_num at h1 h3 ⊢
  linarith

/-- The registry-status block never increases the score. -/
theorem status_adjustment_le (c : CompanyData) : (status_adjustment c).1 ≤ 0 := by
  unfold status_adjustment
  cases c.legal_situation
  · norm_num
  · dsimp only
    split_ifs <;> norm_num

/-- The longevity block adds at most 1.0. -/
theorem longevity_adjustment_le (now : ℤ) (c : CompanyData) :
    (longevity_adjustment now c).1 ≤ 1 := by
  unfold longevity_adjustment
  cases c.registration_date
  · norm_num
  · dsimp only
    split_ifs <;> norm_num

/-- The whole registry block adds at most 1.0. -/
theorem company_adjustment_le (now : ℤ) (o : Option CompanyData) :
    (company_adjustment now o).1 ≤ 1 := by
  cases o with
  | none => norm_num [company_adjustment]
  | some c =>
    have h1 := status_adjustment_le c
    have h2 := longevity_adjustment_le now c
    simp only [company_adjustment]
    linarith

/-- The legal-issue penalty is nonnegative. -/
theorem legal_penalty_nonneg (n : ℕ) : 0 ≤ legal_penalty n := by
  unfold legal_penalty
  split_ifs
  · positivity
  · norm_num

/-- The adverse-media penalty is nonnegative. -/
theorem news_penalty_nonneg (n : ℕ) : 0 ≤ news_penalty n := by
  unfold news_penalty
  split_ifs
  · positivity
  · norm_num

/-- The positive-mention bonus is at most 1.0. -/
theorem mentions_bonus_le (n : ℕ) : mentions_bonus n ≤ 1 := by
  unfold mentions_bonus
  split_ifs
  · exact min_le_right _ _
  · norm_num

/-- The un-clamped non-financial score never exceeds 9 = 7 + 1 + 1. -/
theorem nonfinancial_raw_le (now : ℤ) (s : AgentState) :
    nonfinancial_raw now s ≤ 9 := by
  have h1 := company_adjustment_le now s.company_data
  have h2 := legal_penalty_nonneg (legal_issues_count s.web_search_results)
  have h3 := news_penalty_nonneg (negative_news_count s.web_search_results)
  have h4 := mentions_bonus_le (positive_mentions_count s.web_search_results)
  unfold nonfinancial_raw
  linarith

/-- The clamped financial score never exceeds 9.3. -/
theorem analyze_financial_health_le (s : AgentState) :
    (analyze_financial_health s).1 ≤ 9.3 := by
  unfold analyze_financial_health
  split_ifs
  · norm_num
  · cases hl : ((s.document_analysis.map DocumentAnalysis.financial_kpis).flatten).getLast? with
    | none => norm_num
    | some k =>
      simp only [financial_health_from_kpi]
      exact max_le (by norm_num) ((min_le_right _ _).trans (financial_raw_le k))

/-- The clamped non-financial score never exceeds 9. -/
theorem analyze_non_financial_risks_le (now : ℤ) (s : AgentState) :
    (analyze_non_financial_risks now s).1 ≤ 9 := by
  simp only [analyze_non_financial_risks]
  exact max_le (by norm_num) ((min_le_right _ _).trans (nonfinancial_raw_le now s))

/-- C10: the financial sub-score is at most 9.3, the non-financial
sub-score at most 9.0, hence the overall score 0.7 * financial +
0.3 * non-financial is at most 9.21; the un-clamped scores already sit
below 10, so the upper clamp at 10 never binds for either sub-score. -/
theorem subscore_upper_bounds :
    (∀ s : AgentState, (analyze_financial_health s).1 ≤ 9.3) ∧
    (∀ (now : ℤ) (s : AgentState), (analyze_non_financial_risks now s).1 ≤ 9) ∧
    (∀ (text : String) (now : ℤ) (s : AgentState),
       (risk_assessment_of text now s).overall_risk_score ≤ 9.21) ∧
    (∀ k : FinancialKPI, min 10 (financial_raw k) = financial_raw k) ∧
    (∀ (now : ℤ) (s : AgentState),
       min 10 (nonfinancial_raw now s) = nonfinancial_raw now s) := by
  refine ⟨analyze_financial_health_le, analyze_non_financial_risks_le, ?_, ?_, ?_⟩
  · intro text now s
    have h1 := analyze_financial_health_le s
    have h2 := analyze_non_financial_risks_le now s
    simp only [risk_assessment_of]
    norm_num at h1 ⊢
    linarith
  · intro k
    exact min_eq_right ((financial_raw_le k).trans (by norm_num))
  · intro now s
    exact min_eq_right ((nonfinancial_raw_le now s).trans (by norm_num))

/-- C4 counterexample: on a state with no assessment at all the Quality
Gate produces no quality report whatsoever - it returns the state with
its validation untouched (none), instead of the Rejected report the
claim asserts. -/
theorem quality_gate_no_report_without_assessment :
    sNoAssessment.risk_analysis = none ∧
    (quality_assurance_execute "fb" sNoAssessment).quality_validation = none := by
  exact ⟨rfl, rfl⟩

/-- C4 amended: for every state that does carry an assessment, a failure
of any one of the three critical checks (assessment present, scores in
range, recommendation consistent) forces a Rejected report regardless of
every other check; but a state with no assessment yields no report at
all: the gate returns its validation field unchanged. -/
theorem quality_gate_critical_rejection_amended :
    (∀ (fb : String) (s : AgentState), s.risk_analysis.isSome = true →
       ((perform_consistency_checks s).risk_analysis_present = false ∨
        (perform_consistency_checks s).scores_in_valid_range = false ∨
        (perform_consistency_checks s).recommendation_logic_consistent = false) →
       Option.map QualityValidation.status
         (quality_assurance_execute fb s).quality_validation
         = some QualityStatus.rejected) ∧
    (∀ (fb : String) (s : AgentState), s.risk_analysis = none →
       (quality_assurance_execute fb s).quality_validation
         = s.quality_validation) := by
  constructor
  · intro fb s hsome hcrit
    cases hra : s.risk_analysis with
    | none => rw [hra] at hsome; simp at hsome
    | some ra =>
      simp only [quality_assurance_execute, hra, Option.map_some]
      have hstat : determine_quality_status (perform_consistency_checks s)
          = QualityStatus.rejected := by
        unfold determine_quality_status
        rcases hcrit with h | h | h <;> rw [h] <;> simp
      simp [hstat]
  · intro fb s hra
    simp [quality_assurance_execute, hra]

/-- C4 amended witness: the assessment with overall 8.5 and stored
recommendation Reject fails the recommendation-consistency critical
check, and the gate's report on it is Rejected. -/
theorem quality_gate_critical_rejection_amended_witness :
    Option.map QualityValidation.status
      (quality_assurance_execute "fb" sInconsistent).quality_validation
      = some QualityStatus.rejected :=
  quality_gate_critical_rejection_amended.1 "fb" sInconsistent rfl
    (Or.inr (Or.inr (by
      norm_num [perform_consistency_checks, check_recommendation_logic,
        sInconsistent, sNoAssessment, raInconsistent, RiskDecision.value]
      decide)))

/-- C8 counterexample: from a state with a Rejected report and an
untouched budget (counter 0, ceiling 3) the pipeline router says retry;
one stage-local error retry moves the very counter the router reads from
0 to 1, and after three stage-local retries the router says finish even
though no pipeline-level retry ever happened - the two mechanisms share
one counter, so a stage-local retry does not leave the pipeline-level
counter unchanged. -/
theorem stage_retry_consumes_pipeline_budget :
    sRejectedPending.retry_count = 0 ∧
    should_retry_analysis sRejectedPending = RouteDecision.retry ∧
    Option.map AgentState.retry_count
      (handle_error_step "RiskAnalyst" "e1" sRejectedPending) = some 1 ∧
    Option.map AgentState.retry_count
      (((handle_error_step "RiskAnalyst" "e1" sRejectedPending).bind
          (handle_error_step "RiskAnalyst" "e2")).bind
        (handle_error_step "RiskAnalyst" "e3")) = some 3 ∧
    Option.map should_retry_analysis
      (((handle_error_step "RiskAnalyst" "e1" sRejectedPending).bind
          (handle_error_step "RiskAnalyst" "e2")).bind
        (handle_error_step "RiskAnalyst" "e3")) = some RouteDecision.finish := by
  exact ⟨rfl, rfl, rfl, rfl, rfl⟩

/-- C8 amended: the stage-local error retry and the pipeline-level retry
decision operate on one shared counter with one shared ceiling: a
successful stage-local retry increments exactly the retry_count field
(leaving the ceiling and the stored report alone), and the pipeline
router's retry-versus-finish decision on a Rejected report is the
comparison of that same field against the same ceiling. -/
theorem shared_retry_counter_amended
    (agent err : String) (s s' : AgentState)
    (h : handle_error_step agent err s = some s') :
    s'.retry_count = s.retry_count + 1 ∧
    s'.max_retries = s.max_retries ∧
    s'.quality_validation = s.quality_validation ∧
    (∀ qv : QualityValidation, s'.quality_validation = some qv →
       qv.status = QualityStatus.rejected →
       (should_retry_analysis s' = RouteDecision.retry ↔
          s'.retry_count < s'.max_retries)) := by
  unfold handle_error_step at h
  dsimp only at h
  split_ifs at h with hb
  · rw [Option.some_inj] at h
    subst h
    refine ⟨rfl, rfl, rfl, ?_⟩
    intro qv hqv hstat
    simp only [should_retry_analysis, hqv, hstat]
    constructor
    · intro hr
      by_contra hlt
      simp [if_neg hlt] at hr
    · intro hlt
      simp [hstat, if_pos hlt]

/-- C8 amended witness: the concrete stage-local retry from the
rejected-pending state bumps the shared counter from 0 to 1. -/
theorem shared_retry_counter_amended_witness :
    ((handle_error_step "RiskAnalyst" "e1" sRejectedPending).getD sInit).retry_count
      = sRejectedPending.retry_count + 1 :=
  (shared_retry_counter_amended "RiskAnalyst" "e1" sRejectedPending
    ((handle_error_step "RiskAnalyst" "e1" sRejectedPending).getD sInit) rfl).1


/-- The quality checks read only the tax id, the evidence fields and the
stored assessment. -/
theorem perform_consistency_checks_congr {s1 s2 : AgentState}
    (hcn : s1.cnpj = s2.cnpj)
    (hc : s1.company_data = s2.company_data)
    (hw : s1.web_search_results = s2.web_search_results)
    (hd : s1.document_analysis = s2.document_analysis)
    (hra : s1.risk_analysis = s2.risk_analysis) :
    perform_consistency_checks s1 = perform_consistency_checks s2 := by
  simp only [perform_consistency_checks, check_recommendation_logic,
    check_factors_evidence, check_analysis_text_quality,
    check_financial_data_availability, hcn, hc, hw, hd, hra]

/-- The assessment computed on every pass over the evidence-free request:
degraded financial 3.0, baseline non-financial 7.0, overall 4.2, Reject. -/
def raFix : RiskAnalysis := risk_assessment_of "" 0 sInit

/-- The gate's check outcomes on that assessment. -/
def checksFix : ConsistencyChecks :=
  perform_consistency_checks { sInit with risk_analysis := some raFix }

/-- Concrete value of the per-pass check outcomes on the evidence-free
request: the three critical checks pass and three of the four important
checks fail, so every pass is Rejected. -/
theorem checksFix_eval :
    checksFix =
      { company_data_available := false, cnpj_consistency := false,
        risk_analysis_present := true, scores_in_valid_range := true,
        recommendation_logic_consistent := true, factors_have_evidence := true,
        analysis_text_quality := false, financial_data_available := false } := by
  have hra : raFix =
      { financial_health_score := 3, non_financial_risk_score := 7,
        overall_risk_score := 4.2, positive_factors := [],
        negative_factors := [Factor.noDocuments],
        recommendation := RiskDecision.reject, analysis_text := "",
        confidence_level := 0 } := by
    norm_num [raFix, risk_assessment_of, sInit, analyze_financial_health,
      analyze_non_financial_risks, nonfinancial_raw, company_adjustment,
      legal_issues_count, negative_news_count, positive_mentions_count,
      legal_penalty, news_penalty, mentions_bonus, determine_recommendation,
      calculate_confidence_level]
  norm_num [checksFix, perform_consistency_checks, check_recommendation_logic,
    check_factors_evidence, check_analysis_text_quality,
    check_financial_data_availability, sInit, hra, RiskDecision.value]
  decide

/-- The Rejected report the gate attaches on every pass. -/
def qvFix : QualityValidation :=
  { status := QualityStatus.rejected, consistency_checks := checksFix,
    feedback := some "fb", validation_notes := generate_validation_notes checksFix }

/-- The shape of the state after any complete Scoring-plus-Validating
pass of the evidence-free request: only the processing log varies. -/
def loopState (notes : List String) : AgentState :=
  { sInit with
    processing_notes := notes, risk_analysis := some raFix,
    quality_validation := some qvFix }

/-- The per-pass check outcomes resolve to Rejected. -/
theorem statusFix : determine_quality_status checksFix = QualityStatus.rejected := by
  rw [checksFix_eval]
  rfl

/-- Scoring then Validating from any evidence-free state of the request
lands in the loop shape. -/
theorem exec_then_qa (s1 : AgentState)
    (hreq : s1.request_id = "r5") (hcn : s1.cnpj = "12345678000199")
    (hdocs : s1.documents = []) (hc : s1.company_data = none)
    (hw : s1.web_search_results = []) (hd : s1.document_analysis = [])
    (hrc : s1.retry_count = 0) (hmr : s1.max_retries = 3) :
    ∃ notes, quality_assurance_execute "fb" (risk_analyst_execute "" 0 s1)
      = loopState notes := by
  have hra : risk_assessment_of "" 0 s1 = raFix :=
    risk_assessment_of_congr "" 0 hc hw hd
  have hchecks : perform_consistency_checks
      { s1 with
        risk_analysis := some raFix,
        processing_notes := s1.processing_notes
          ++ ["[RiskAnalyst] Iniciando análise de risco consolidada",
              "[RiskAnalyst] Análise concluída: " ++ raFix.recommendation.value] }
      = checksFix :=
    perform_consistency_checks_congr hcn hc hw hd rfl
  refine ⟨s1.processing_notes ++
    ["[RiskAnalyst] Iniciando análise de risco consolidada",
     "[RiskAnalyst] Análise concluída: " ++ raFix.recommendation.value,
     "[QualityAssurance] Iniciando validação de qualidade",
     "[QualityAssurance] Validação concluída: rejected"], ?_⟩
  simp only [risk_analyst_execute, hra, quality_assurance_execute, hchecks,
    statusFix, loopState, sInit]
  simp only [AgentState.mk.injEq, hreq, hcn, hdocs, hc, hw, hd, hrc, hmr]
  simp [qvFix]

/-- A full pipeline pass from any evidence-free state of the request
(whatever report or assessment it currently carries) lands in the loop
shape. -/
theorem pipeline_pass_evidence_free (s : AgentState)
    (hreq : s.request_id = "r5") (hcn : s.cnpj = "12345678000199")
    (hdocs : s.documents = []) (hc : s.company_data = none)
    (hw : s.web_search_results = []) (hd : s.document_analysis = [])
    (hrc : s.retry_count = 0) (hmr : s.max_retries = 3) :
    ∃ notes, pipeline_pass "" "fb" 0 s = loopState notes := by
  unfold pipeline_pass risk_analyst_node
  cases hqv : s.quality_validation with
  | none =>
    dsimp only
    exact exec_then_qa s hreq hcn hdocs hc hw hd hrc hmr
  | some qv =>
    dsimp only
    cases hfb : qv.feedback with
    | none =>
      dsimp only
      exact exec_then_qa s hreq hcn hdocs hc hw hd hrc hmr
    | some fb =>
      dsimp only
      exact exec_then_qa
        { s with
          processing_notes := s.processing_notes ++ ["Feedback QA: " ++ fb],
          quality_validation := none }
        hreq hcn hdocs hc hw hd hrc hmr

/-- After any positive number of passes the trace of the evidence-free
request is in the loop shape. -/
theorem pipeline_trace_loop (n : ℕ) :
    ∃ notes, pipeline_trace "" "fb" 0 sInit (n + 1) = loopState notes := by
  induction n with
  | zero =>
    exact pipeline_pass_evidence_free sInit rfl rfl rfl rfl rfl rfl rfl rfl
  | succ m ih =>
    obtain ⟨notes, hm⟩ := ih
    show ∃ notes2,
      pipeline_pass "" "fb" 0 (pipeline_trace "" "fb" 0 sInit (m + 1))
        = loopState notes2
    rw [hm]
    exact pipeline_pass_evidence_free (loopState notes) rfl rfl rfl rfl rfl rfl rfl rfl

/-- C1: on the evidence-free request with ceiling 3 and the gate
rejecting every pass, no code on the reject path ever increments the
pipeline retry counter, so after every pass - the 4th included - the
counter still reads 0 below the ceiling 3, the stored report is
Rejected, and the router orders yet another Scoring pass: the number of
Scoring attempts is not bounded by ceiling + 1. -/
theorem scoring_attempts_unbounded (n : ℕ) :
    (pipeline_trace "" "fb" 0 sInit (n + 1)).retry_count = 0 ∧
    (pipeline_trace "" "fb" 0 sInit (n + 1)).max_retries = 3 ∧
    Option.map QualityValidation.status
      ((pipeline_trace "" "fb" 0 sInit (n + 1)).quality_validation)
      = some QualityStatus.rejected ∧
    should_retry_analysis (pipeline_trace "" "fb" 0 sInit (n + 1))
      = RouteDecision.retry := by
  obtain ⟨notes, h⟩ := pipeline_trace_loop n
  rw [h]
  refine ⟨rfl, rfl, rfl, ?_⟩
  simp [should_retry_analysis, loopState, qvFix, sInit]
